import Mathlib

/-!
A shallow embedding of the glTF document decoding engine from
`src/src/fastgltf.cpp` (namespace `fastgltf`).  The generic parsed-JSON
tree of the external simdjson collaborator is modelled as an inductive
`Json` value; on-demand field lookup becomes association-list lookup and
the scalar extraction calls (`get_uint64`, `get_double`, `get_string`,
`get_bool`, `get_array`, `get_object`) become `Option`-returning
accessors.  JSON numbers are modelled as integers: every claim under
study only distinguishes "numeric" from "non-numeric" entries and
unsigned-integer extraction, so the integral model is faithful for them
(the `static_cast<float>` narrowing on matrix entries is represented as
the identity on the model values).  Machine `size_t` indices become
`Nat`, with the source's `std::numeric_limits<size_t>::max()` sentinel
kept as the explicit constant `sizeMax = 2^64 - 1`.
-/

set_option autoImplicit false

namespace Fastgltf

/-- Model of the generic parsed-JSON tree produced by the external
tokenizer collaborator.  Numbers are modelled as integers (see the file
header). -/
inductive Json where
  | null
  | bool (b : Bool)
  | num (i : Int)
  | str (s : String)
  | arr (elems : List Json)
  | obj (fields : List (String × Json))

/-- On-demand field lookup `object[key]`: the first field with the given
key, if any. -/
def getField : List (String × Json) → String → Option Json
  | [], _ => Option.none
  | (k, v) :: rest, key => if k = key then some v else getField rest key

/-- Source `get_uint64`: succeeds exactly on non-negative integral numbers. -/
def Json.getUint64 : Json → Option Nat
  | .num i => if 0 ≤ i then some i.toNat else Option.none
  | _ => Option.none

/-- Source `get_double`: succeeds exactly on numbers. -/
def Json.getDouble : Json → Option Int
  | .num i => some i
  | _ => Option.none

/-- Source `get_string`. -/
def Json.getString : Json → Option String
  | .str s => some s
  | _ => Option.none

/-- Source `get_bool`. -/
def Json.getBool : Json → Option Bool
  | .bool b => some b
  | _ => Option.none

/-- Source `get_array`. -/
def Json.getArray : Json → Option (List Json)
  | .arr elems => some elems
  | _ => Option.none

/-- Source `get_object`. -/
def Json.getObject : Json → Option (List (String × Json))
  | .obj fields => some fields
  | _ => Option.none

/-- The error taxonomy of `fastgltf::Error` as used by the source file. -/
inductive Error where
  | none
  | invalidPath
  | nonExistentPath
  | wrongExtension
  | invalidJson
  | invalidOrMissingAssetField
  | invalidGltf
  deriving DecidableEq, Repr

/-- The recognised option bits of `fastgltf::Options` used by the source
file (`hasBit(options, Options::X)` becomes a field read). -/
structure Options where
  allowDouble : Bool := false
  dontRequireValidAssetMember : Bool := false
  dontUseSIMD : Bool := false
  loadKTXExtension : Bool := false
  loadDDSExtension : Bool := false
  ignoreFileExtension : Bool := false
  deriving DecidableEq, Repr

/-- Source `fastgltf::MimeType`. -/
inductive MimeType where
  | None
  | JPEG
  | PNG
  | KTX2
  | DDS
  | GltfBuffer
  | OctetStream
  deriving DecidableEq, Repr

/-- Source `fastgltf::DataLocation`. -/
inductive DataLocation where
  | None
  | VectorWithMime
  | FilePathWithByteRange
  | BufferViewWithMime
  deriving DecidableEq, Repr

/-- Source `std::numeric_limits<size_t>::max()`, the sentinel for an absent
index. -/
def sizeMax : Nat := 2 ^ 64 - 1

/-- Source `fastgltf::DataSource`.  `bytes` holds the result of the external
base64 collaborator, hence an `Option`: `none` records that the decoder
was handed input it rejects. -/
structure DataSource where
  bufferViewIndex : Nat := 0
  mimeType : MimeType := MimeType.None
  bytes : Option (List Nat) := Option.none
  path : Option (List Char) := Option.none
  deriving DecidableEq, Repr

/-- The value of one base64 alphabet character. -/
def base64Val (c : Char) : Option Nat :=
  if 'A' ≤ c ∧ c ≤ 'Z' then some (c.toNat - 65)
  else if 'a' ≤ c ∧ c ≤ 'z' then some (c.toNat - 97 + 26)
  else if '0' ≤ c ∧ c ≤ '9' then some (c.toNat - 48 + 52)
  else if c = '+' then some 62
  else if c = '/' then some 63
  else Option.none

/-- Modelled from the spec: the external base64 collaborator
(`base64::decode` / `base64::fallback_decode`, whose source is not under
`src/`), described in §6 as `decode(bytes) -> bytes` with two
interchangeable implementations, applied in §4.2 to base64-decode the
data-URI payload.  Modelled as a strict RFC 4648 decoder: input length
must be a multiple of four, padding only at the end, and every
non-padding character must be in the base64 alphabet; anything else is
rejected (`none`). -/
def base64decode : List Char → Option (List Nat)
  | [] => some []
  | a :: b :: c :: d :: rest =>
    match base64Val a, base64Val b with
    | some va, some vb =>
      if c = '=' then
        if d = '=' ∧ rest = [] then some [va * 4 + vb / 16] else Option.none
      else
        match base64Val c with
        | some vc =>
          if d = '=' then
            if rest = [] then some [va * 4 + vb / 16, vb % 16 * 16 + vc / 4]
            else Option.none
          else
            match base64Val d with
            | some vd =>
              (base64decode rest).map
                (fun tail => (va * 4 + vb / 16) :: (vb % 16 * 16 + vc / 4) ::
                  (vc % 4 * 64 + vd) :: tail)
            | Option.none => Option.none
        | Option.none => Option.none
    | _, _ => Option.none
  | _ => Option.none

/-- Source `fg::glTF::getMimeTypeFromString`: exact-match lookup of the fixed
MIME table. -/
def getMimeTypeFromString (mime : List Char) : MimeType :=
  if mime = "image/jpeg".toList then MimeType.JPEG
  else if mime = "image/png".toList then MimeType.PNG
  else if mime = "image/ktx2".toList then MimeType.KTX2
  else if mime = "image/vnd-ms.dds".toList then MimeType.DDS
  else if mime = "application/gltf-buffer".toList then MimeType.GltfBuffer
  else if mime = "application/octet-stream".toList then MimeType.OctetStream
  else MimeType.None

/-- Source `std::string_view::find(c, start)`: index of the first occurrence of
`c` at position `start` or later. -/
def findCharFrom (s : List Char) (c : Char) (start : Nat) : Option Nat :=
  ((s.drop start).findIdx? (fun x => x = c)).map (fun i => i + start)

/-- Source `fg::glTF::decodeUri`.  The session members `options` and
`directory` that the method reads become explicit parameters.  Note that
the payload handed to the base64 collaborator is `uri.substr(encodingEnd)`,
the suffix starting AT the first `,` (comma included), exactly as in the
source. -/
def decodeUri (options : Options) (directory : List Char) (uri : List Char) :
    Error × DataSource × DataLocation :=
  if uri.take 4 = "data".toList then
    match findCharFrom uri ';' 0 with
    | Option.none => (Error.invalidGltf, {}, DataLocation.None)
    | some index =>
      match findCharFrom uri ',' (index + 1) with
      | Option.none => (Error.invalidGltf, {}, DataLocation.None)
      | some encodingEnd =>
        let encoding := (uri.drop (index + 1)).take (encodingEnd - index - 1)
        if encoding = "base64".toList then
          let encodedData := uri.drop encodingEnd
          let uriData :=
            if options.dontUseSIMD then base64decode encodedData
            else base64decode encodedData
          let source : DataSource :=
            { mimeType := getMimeTypeFromString ((uri.drop 5).take (index - 5))
              bytes := uriData }
          (Error.none, source, DataLocation.VectorWithMime)
        else
          (Error.invalidGltf, {}, DataLocation.None)
  else
    (Error.none, { path := some (directory ++ '/' :: uri) },
      DataLocation.FilePathWithByteRange)

/-- Modelled from the spec: the external lookup table
`getComponentType` (declared in headers not under `src/`; §1 treats the
raw-code-to-enumeration tables as a pure external function).  The codes
are the glTF component-type codes, with 5130 mapping to the
double-precision component type. -/
inductive ComponentType where
  | Byte
  | UnsignedByte
  | Short
  | UnsignedShort
  | UnsignedInt
  | Float
  | Double
  | Invalid
  deriving DecidableEq, Repr

/-- Modelled from the spec: raw component-type code lookup (see
`ComponentType`). -/
def getComponentType (code : Nat) : ComponentType :=
  if code = 5120 then ComponentType.Byte
  else if code = 5121 then ComponentType.UnsignedByte
  else if code = 5122 then ComponentType.Short
  else if code = 5123 then ComponentType.UnsignedShort
  else if code = 5125 then ComponentType.UnsignedInt
  else if code = 5126 then ComponentType.Float
  else if code = 5130 then ComponentType.Double
  else ComponentType.Invalid

/-- Modelled from the spec: the external accessor element-count-type
lookup table `getAccessorType` (§1). -/
inductive AccessorType where
  | Scalar
  | Vec2
  | Vec3
  | Vec4
  | Mat2
  | Mat3
  | Mat4
  | Invalid
  deriving DecidableEq, Repr

/-- Modelled from the spec: accessor type-string lookup (see
`AccessorType`). -/
def getAccessorType (ty : String) : AccessorType :=
  if ty = "SCALAR" then AccessorType.Scalar
  else if ty = "VEC2" then AccessorType.Vec2
  else if ty = "VEC3" then AccessorType.Vec3
  else if ty = "VEC4" then AccessorType.Vec4
  else if ty = "MAT2" then AccessorType.Mat2
  else if ty = "MAT3" then AccessorType.Mat3
  else if ty = "MAT4" then AccessorType.Mat4
  else AccessorType.Invalid

/-- Source `fastgltf::Buffer`. -/
structure Buffer where
  byteLength : Nat
  data : DataSource := {}
  location : DataLocation := DataLocation.None
  name : String := ""
  deriving DecidableEq, Repr

/-- Source `fastgltf::BufferView`.  The raw `target` code is kept as a `Nat`
(the `static_cast<BufferTarget>` is a raw cast in the source). -/
structure BufferView where
  bufferIndex : Nat
  byteLength : Nat
  byteOffset : Nat := 0
  target : Option Nat := Option.none
  name : String := ""
  deriving DecidableEq, Repr

/-- Source `fastgltf::Accessor`. -/
structure Accessor where
  componentType : ComponentType := ComponentType.Invalid
  type : AccessorType := AccessorType.Invalid
  count : Nat := 0
  bufferViewIndex : Nat := sizeMax
  byteOffset : Nat := 0
  normalized : Bool := false
  name : String := ""
  deriving DecidableEq, Repr

/-- Source `fastgltf::Image`. -/
structure Image where
  data : DataSource := {}
  location : DataLocation := DataLocation.None
  name : String := ""
  deriving DecidableEq, Repr

/-- Source `fastgltf::Texture`.  The defaults of the index members (types
header not under `src/`) are modelled from the spec (§3): an index whose
value is the maximum representable value of its integer type means
"absent / no reference". -/
structure Texture where
  imageIndex : Nat := sizeMax
  fallbackImageIndex : Nat := sizeMax
  samplerIndex : Nat := sizeMax
  name : String := ""
  deriving DecidableEq, Repr

/-- Source `fastgltf::Primitive`.  The raw topology code is kept as a `Nat`
(the `static_cast<PrimitiveType>` is a raw cast in the source). -/
structure Primitive where
  attributes : List (String × Nat) := []
  type : Nat := 4
  indicesAccessorIndex : Nat := sizeMax
  materialIndex : Nat := sizeMax
  deriving DecidableEq, Repr

/-- Source `fastgltf::Mesh`. -/
structure Mesh where
  primitives : List Primitive := []
  name : String := ""
  deriving DecidableEq, Repr

/-- Source `fastgltf::Node`.  `Node node = {};` zero-initialises the node, so
the matrix starts as sixteen zero entries and `hasMatrix` as `false`. -/
structure Node where
  meshIndex : Nat := sizeMax
  hasMatrix : Bool := false
  matrix : List Int := List.replicate 16 0
  name : String := ""
  deriving DecidableEq, Repr

/-- Source `fastgltf::Scene`. -/
structure Scene where
  nodeIndices : List Nat := []
  name : String := ""
  deriving DecidableEq, Repr

/-- Source `fastgltf::Asset`: the aggregate root, created empty at session
start. -/
structure Asset where
  buffers : List Buffer := []
  bufferViews : List BufferView := []
  accessors : List Accessor := []
  images : List Image := []
  textures : List Texture := []
  meshes : List Mesh := []
  nodes : List Node := []
  scenes : List Scene := []
  deriving DecidableEq, Repr

/-- The document session `fg::glTF`: the root object of the generic
tree, the base directory, the options, the asset under construction
(`parsedAsset = std::make_unique<Asset>()` in the constructor, so
initially present and empty; `none` models the moved-from pointer after
retrieval) and the accumulated error state. -/
structure Session where
  root : List (String × Json)
  directory : List Char := []
  options : Options := {}
  parsedAsset : Option Asset := some {}
  errorCode : Error := Error.none

/-- Source `fg::glTF::getParsedAsset`: refuses to release the asset once any
error is recorded; on success moves the asset out of the session. -/
def getParsedAsset (s : Session) : Option Asset × Session :=
  if s.errorCode ≠ Error.none then (Option.none, s)
  else (s.parsedAsset, { s with parsedAsset := Option.none })

/-- The element loop of `fg::iterateOverArray`: run the callback on each
element in order; the callback threads the captured mutable state and
returns `false` on failure, which stops the loop immediately (the state
mutations made so far, including those of the failing call, persist as
in the source's captured-by-reference lambdas). -/
def iterateList {σ : Type} (cb : σ → Json → σ × Bool) : σ → List Json → σ × Bool
  | s, [] => (s, true)
  | s, j :: rest =>
    let r := cb s j
    if r.2 then iterateList cb r.1 rest else (r.1, false)

/-- Source `fg::iterateOverArray`: look the named field up and require an
array; absent-or-not-an-array reports `(false, Error.none)`; a callback
failure reports `(false, Error.invalidGltf)`; full success reports
`(true, Error.none)`.  The mutated callback state is returned
alongside. -/
def iterateOverArray {σ : Type} (parent : List (String × Json)) (arrayName : String)
    (cb : σ → Json → σ × Bool) (s : σ) : σ × Bool × Error :=
  match (getField parent arrayName).bind Json.getArray with
  | Option.none => (s, false, Error.none)
  | some elems =>
    let r := iterateList cb s elems
    if r.2 then (r.1, true, Error.none) else (r.1, false, Error.invalidGltf)

/-- Source `fg::getImageIndexForExtension`: the returned triple is
`(invalidGltf, extensionNotPresent, imageIndex)`.  A key that is absent
or whose value is not an object yields `(false, true, 0)`; a key whose
value is an object without a usable `source` index yields
`(true, false, 0)`; otherwise the source index is returned as
`(false, false, imageIndex)`. -/
def getImageIndexForExtension (object : List (String × Json)) (extension : String) :
    Bool × Bool × Nat :=
  match (getField object extension).bind Json.getObject with
  | Option.none => (false, true, 0)
  | some sourceExtensionObject =>
    match (getField sourceExtensionObject "source").bind Json.getUint64 with
    | Option.none => (true, false, 0)
    | some imageIndex => (false, false, imageIndex)

/-- Source `fg::parseTextureExtensions`: try `KHR_texture_basisu` (when
enabled), then `MSFT_texture_dds` (when enabled); `none` models the
source's `return false`. -/
def parseTextureExtensions (texture : Texture) (extensions : List (String × Json))
    (options : Options) : Option Texture :=
  let ddsStep : Option Texture :=
    if options.loadDDSExtension then
      match getImageIndexForExtension extensions "MSFT_texture_dds" with
      | (true, _, _) => Option.none
      | (false, true, _) => Option.none
      | (false, false, imageIndex) => some { texture with imageIndex := imageIndex }
    else Option.none
  if options.loadKTXExtension then
    match getImageIndexForExtension extensions "KHR_texture_basisu" with
    | (true, _, _) => Option.none
    | (false, true, _) => ddsStep
    | (false, false, imageIndex) => some { texture with imageIndex := imageIndex }
  else ddsStep

/-- Append a finished buffer to the asset under construction (the
source's `parsedAsset->buffers.emplace_back`). -/
def Session.pushBuffer (s : Session) (b : Buffer) : Session :=
  { s with parsedAsset := s.parsedAsset.map fun a => { a with buffers := a.buffers ++ [b] } }

/-- Append a finished buffer view to the asset under construction. -/
def Session.pushBufferView (s : Session) (v : BufferView) : Session :=
  { s with parsedAsset := s.parsedAsset.map fun a => { a with bufferViews := a.bufferViews ++ [v] } }

/-- Append a finished accessor to the asset under construction. -/
def Session.pushAccessor (s : Session) (acc : Accessor) : Session :=
  { s with parsedAsset := s.parsedAsset.map fun a => { a with accessors := a.accessors ++ [acc] } }

/-- Append a finished image to the asset under construction. -/
def Session.pushImage (s : Session) (img : Image) : Session :=
  { s with parsedAsset := s.parsedAsset.map fun a => { a with images := a.images ++ [img] } }

/-- Append a finished texture to the asset under construction. -/
def Session.pushTexture (s : Session) (t : Texture) : Session :=
  { s with parsedAsset := s.parsedAsset.map fun a => { a with textures := a.textures ++ [t] } }

/-- Append a finished mesh to the asset under construction. -/
def Session.pushMesh (s : Session) (m : Mesh) : Session :=
  { s with parsedAsset := s.parsedAsset.map fun a => { a with meshes := a.meshes ++ [m] } }

/-- Append a finished node to the asset under construction. -/
def Session.pushNode (s : Session) (n : Node) : Session :=
  { s with parsedAsset := s.parsedAsset.map fun a => { a with nodes := a.nodes ++ [n] } }

/-- Append a finished scene to the asset under construction. -/
def Session.pushScene (s : Session) (sc : Scene) : Session :=
  { s with parsedAsset := s.parsedAsset.map fun a => { a with scenes := a.scenes ++ [sc] } }

/-- The element callback body of `fg::glTF::parseBuffers`: `none` models
the lambda's `return false`. -/
def parseBufferElem (options : Options) (directory : List Char) (value : Json) :
    Option Buffer :=
  (value.getObject).bind fun bufferObject =>
  ((getField bufferObject "byteLength").bind Json.getUint64).bind fun byteLength =>
  let uriStep : Option (DataSource × DataLocation) :=
    match (getField bufferObject "uri").bind Json.getString with
    | Option.none => some ({}, DataLocation.None)
    | some uri =>
      let r := decodeUri options directory uri.toList
      if r.1 ≠ Error.none then Option.none else some (r.2.1, r.2.2)
  uriStep.bind fun step =>
  if step.2 = DataLocation.None then Option.none
  else some { byteLength := byteLength, data := step.1, location := step.2,
              name := ((getField bufferObject "name").bind Json.getString).getD "" }

/-- The element callback body of `fg::glTF::parseBufferViews`. -/
def parseBufferViewElem (value : Json) : Option BufferView :=
  (value.getObject).bind fun bufferViewObject =>
  ((getField bufferViewObject "buffer").bind Json.getUint64).bind fun bufferIndex =>
  ((getField bufferViewObject "byteLength").bind Json.getUint64).bind fun byteLength =>
  some { bufferIndex := bufferIndex
         byteLength := byteLength
         byteOffset := ((getField bufferViewObject "byteOffset").bind Json.getUint64).getD 0
         target := (getField bufferViewObject "target").bind Json.getUint64
         name := ((getField bufferViewObject "name").bind Json.getString).getD "" }

/-- The element callback body of `fg::glTF::parseAccessors`, including
the double-precision gate: a component type equal to `Double` is
rejected unless the `AllowDouble` option bit is set. -/
def parseAccessorElem (options : Options) (value : Json) : Option Accessor :=
  (value.getObject).bind fun accessorObject =>
  ((getField accessorObject "componentType").bind Json.getUint64).bind fun code =>
  let componentType := getComponentType code
  if componentType = ComponentType.Double ∧ options.allowDouble = false then Option.none
  else
    ((getField accessorObject "type").bind Json.getString).bind fun accessorType =>
    ((getField accessorObject "count").bind Json.getUint64).bind fun count =>
    some { componentType := componentType
           type := getAccessorType accessorType
           count := count
           bufferViewIndex := ((getField accessorObject "bufferView").bind Json.getUint64).getD sizeMax
           byteOffset := ((getField accessorObject "byteOffset").bind Json.getUint64).getD 0
           normalized := ((getField accessorObject "normalized").bind Json.getBool).getD false
           name := ((getField accessorObject "name").bind Json.getString).getD "" }

/-- The element callback body of `fg::glTF::parseImages`.  As in the
source, the bufferView branch assigns the data members but never assigns
`image.location`, so a bufferView-sourced image reaches the final
`location == DataLocation::None` check with location still `None`. -/
def parseImageElem (options : Options) (directory : List Char) (value : Json) :
    Option Image :=
  (value.getObject).bind fun imageObject =>
  let uriStep : Option (DataSource × DataLocation) :=
    match (getField imageObject "uri").bind Json.getString with
    | Option.none => some ({}, DataLocation.None)
    | some uri =>
      if (getField imageObject "bufferView").isSome then Option.none
      else
        let r := decodeUri options directory uri.toList
        if r.1 ≠ Error.none then Option.none
        else
          let source :=
            match (getField imageObject "mimeType").bind Json.getString with
            | some mt => { r.2.1 with mimeType := getMimeTypeFromString mt.toList }
            | Option.none => r.2.1
          some (source, r.2.2)
  uriStep.bind fun step =>
  let bvStep : Option DataSource :=
    match (getField imageObject "bufferView").bind Json.getUint64 with
    | Option.none => some step.1
    | some bufferViewIndex =>
      match (getField imageObject "mimeType").bind Json.getString with
      | Option.none => Option.none
      | some mt =>
        some { step.1 with
               bufferViewIndex := bufferViewIndex
               mimeType := getMimeTypeFromString mt.toList }
  bvStep.bind fun data =>
  if step.2 = DataLocation.None then Option.none
  else some { data := data, location := step.2,
              name := ((getField imageObject "name").bind Json.getString).getD "" }

/-- The element callback body of `fg::glTF::parseTextures`: read the
plain `source` index (sentinel when unreadable); fail when neither a
`source` index nor an extensions map is present; when an extensions map
is present, keep `source`'s value as the fallback index and require the
extension resolver to supply the primary index. -/
def parseTextureElem (options : Options) (value : Json) : Option Texture :=
  (value.getObject).bind fun textureObject =>
  let extOpt := (getField textureObject "extensions").bind Json.getObject
  let sourceOpt := (getField textureObject "source").bind Json.getUint64
  if sourceOpt.isNone ∧ extOpt.isNone then Option.none
  else
    let texture0 : Texture := { imageIndex := sourceOpt.getD sizeMax }
    let resolved : Option Texture :=
      match extOpt with
      | Option.none => some texture0
      | some extensionsObject =>
        parseTextureExtensions
          { texture0 with fallbackImageIndex := texture0.imageIndex }
          extensionsObject options
    resolved.bind fun texture1 =>
    some { texture1 with
           samplerIndex := ((getField textureObject "sampler").bind Json.getUint64).getD sizeMax
           name := ((getField textureObject "name").bind Json.getString).getD "" }

/-- The per-key step of the primitive attribute loop: every key is
recorded with its unsigned-integer value; a non-uint value fails the
primitive. -/
def parseAttributes : List (String × Json) → Option (List (String × Nat))
  | [] => some []
  | (key, v) :: rest =>
    (v.getUint64).bind fun n =>
    (parseAttributes rest).map fun tail => (key, n) :: tail

/-- The element callback body of the nested primitives loop of
`fg::glTF::parseMeshes`. -/
def parsePrimitiveElem (value : Json) : Option Primitive :=
  (value.getObject).bind fun primitiveObject =>
  ((getField primitiveObject "attributes").bind Json.getObject).bind fun attributesObject =>
  (parseAttributes attributesObject).bind fun attrs =>
  some { attributes := attrs
         type := ((getField primitiveObject "mode").bind Json.getUint64).getD 4
         indicesAccessorIndex := ((getField primitiveObject "indices").bind Json.getUint64).getD sizeMax
         materialIndex := ((getField primitiveObject "material").bind Json.getUint64).getD sizeMax }

/-- The matrix element loop of `fg::glTF::parseNodes`.  As in the
source, the loop variable `i` is initialised to zero and never
incremented, so every successfully parsed entry is written to slot `i`
of the matrix; a non-numeric entry clears `hasMatrix` and breaks. -/
def matrixLoop : Node → Nat → List Json → Node
  | node, _, [] => node
  | node, i, num :: rest =>
    match num.getDouble with
    | Option.none => { node with hasMatrix := false }
    | some val => matrixLoop { node with matrix := node.matrix.set i val } i rest

/-- The element callback body of `fg::glTF::parseNodes`. -/
def parseNodeElem (value : Json) : Option Node :=
  (value.getObject).bind fun nodeObject =>
  let node0 : Node := { meshIndex := ((getField nodeObject "mesh").bind Json.getUint64).getD sizeMax }
  let node1 :=
    match (getField nodeObject "matrix").bind Json.getArray with
    | Option.none => node0
    | some matrixArray => matrixLoop { node0 with hasMatrix := true } 0 matrixArray
  some { node1 with name := ((getField nodeObject "name").bind Json.getString).getD "" }

/-- The lambda of `fg::glTF::parseBuffers` as a named callback. -/
def buffersCallback (st : Session) (v : Json) : Session × Bool :=
  match parseBufferElem st.options st.directory v with
  | Option.none => (st, false)
  | some b => (st.pushBuffer b, true)

/-- The lambda of `fg::glTF::parseBufferViews` as a named callback. -/
def bufferViewsCallback (st : Session) (v : Json) : Session × Bool :=
  match parseBufferViewElem v with
  | Option.none => (st, false)
  | some bv => (st.pushBufferView bv, true)

/-- The lambda of `fg::glTF::parseAccessors` as a named callback. -/
def accessorsCallback (st : Session) (v : Json) : Session × Bool :=
  match parseAccessorElem st.options v with
  | Option.none => (st, false)
  | some acc => (st.pushAccessor acc, true)

/-- The lambda of `fg::glTF::parseImages` as a named callback. -/
def imagesCallback (st : Session) (v : Json) : Session × Bool :=
  match parseImageElem st.options st.directory v with
  | Option.none => (st, false)
  | some img => (st.pushImage img, true)

/-- The lambda of `fg::glTF::parseTextures` as a named callback. -/
def texturesCallback (st : Session) (v : Json) : Session × Bool :=
  match parseTextureElem st.options v with
  | Option.none => (st, false)
  | some t => (st.pushTexture t, true)

/-- The lambda of `fg::glTF::parseNodes` as a named callback. -/
def nodesCallback (st : Session) (v : Json) : Session × Bool :=
  match parseNodeElem v with
  | Option.none => (st, false)
  | some n => (st.pushNode n, true)

/-- Source `fg::glTF::parseBuffers`. -/
def parseBuffers (s : Session) : Session :=
  let r := iterateOverArray s.root "buffers" buffersCallback s
  if r.2.1 = false ∧ r.2.2 ≠ Error.none then { r.1 with errorCode := r.2.2 } else r.1

/-- Source `fg::glTF::parseBufferViews`. -/
def parseBufferViews (s : Session) : Session :=
  let r := iterateOverArray s.root "bufferViews" bufferViewsCallback s
  if r.2.1 = false ∧ r.2.2 ≠ Error.none then { r.1 with errorCode := r.2.2 } else r.1

/-- Source `fg::glTF::parseAccessors`. -/
def parseAccessors (s : Session) : Session :=
  let r := iterateOverArray s.root "accessors" accessorsCallback s
  if r.2.1 = false ∧ r.2.2 ≠ Error.none then { r.1 with errorCode := r.2.2 } else r.1

/-- Source `fg::glTF::parseImages`. -/
def parseImages (s : Session) : Session :=
  let r := iterateOverArray s.root "images" imagesCallback s
  if r.2.1 = false ∧ r.2.2 ≠ Error.none then { r.1 with errorCode := r.2.2 } else r.1

/-- Source `fg::glTF::parseTextures`. -/
def parseTextures (s : Session) : Session :=
  let r := iterateOverArray s.root "textures" texturesCallback s
  if r.2.1 = false ∧ r.2.2 ≠ Error.none then { r.1 with errorCode := r.2.2 } else r.1

/-- The element callback body of `fg::glTF::parseMeshes`, including the
nested primitives loop; a failing primitives array records
`Error.invalidGltf` in the session (the source writes `errorCode` from
inside the lambda) and fails the mesh element. -/
def meshesCallback (s : Session) (value : Json) : Session × Bool :=
  match value.getObject with
  | Option.none => (s, false)
  | some meshObject =>
    let r := iterateOverArray meshObject "primitives"
      (fun (ps : List Primitive) v =>
        match parsePrimitiveElem v with
        | Option.none => (ps, false)
        | some p => (ps ++ [p], true)) []
    if r.2.1 = false ∧ r.2.2 ≠ Error.none then
      ({ s with errorCode := Error.invalidGltf }, false)
    else
      (s.pushMesh { primitives := r.1
                    name := ((getField meshObject "name").bind Json.getString).getD "" }, true)

/-- Source `fg::glTF::parseMeshes`. -/
def parseMeshes (s : Session) : Session :=
  let r := iterateOverArray s.root "meshes" meshesCallback s
  if r.2.1 = false ∧ r.2.2 ≠ Error.none then { r.1 with errorCode := r.2.2 } else r.1

/-- Source `fg::glTF::parseNodes`. -/
def parseNodes (s : Session) : Session :=
  let r := iterateOverArray s.root "nodes" nodesCallback s
  if r.2.1 = false ∧ r.2.2 ≠ Error.none then { r.1 with errorCode := r.2.2 } else r.1

/-- The element callback body of `fg::glTF::parseScenes`, including the
nested node-index loop; a failing nodes array stores its error into the
session's `errorCode` (the source writes `errorCode` from inside the
lambda) and fails the scene element. -/
def scenesCallback (s : Session) (value : Json) : Session × Bool :=
  match value.getObject with
  | Option.none => (s, false)
  | some sceneObject =>
    let r := iterateOverArray sceneObject "nodes"
      (fun (ids : List Nat) v =>
        match v.getUint64 with
        | Option.none => (ids, false)
        | some i => (ids ++ [i], true)) []
    if r.2.1 = false ∧ r.2.2 ≠ Error.none then
      ({ s with errorCode := r.2.2 }, false)
    else
      (s.pushScene { nodeIndices := r.1
                     name := ((getField sceneObject "name").bind Json.getString).getD "" }, true)

/-- Source `fg::glTF::parseScenes`. -/
def parseScenes (s : Session) : Session :=
  let r := iterateOverArray s.root "scenes" scenesCallback s
  if r.2.1 = false ∧ r.2.2 ≠ Error.none then { r.1 with errorCode := r.2.2 } else r.1

/-- A session that already records `invalidJson` and whose document
holds one well-formed buffer element, used to demonstrate that entity
parsers still run after an error. -/
def erroredBuffersSession : Session :=
  { root := [("buffers", Json.arr [Json.obj
      [("byteLength", Json.num 4), ("uri", Json.str "x.bin")]])]
    errorCode := Error.invalidJson }

/-- A session that already records `invalidJson` and whose document
holds one empty scene element. -/
def erroredScenesSession : Session :=
  { root := [("scenes", Json.arr [Json.obj []])]
    errorCode := Error.invalidJson }

/-- C1: evaluation of `parseNodes`'s element parse at the claim's own
inputs.  A node whose `matrix` is the sixteen numbers 1..16 parses with
`hasMatrix = true` but with every entry written to slot 0 (the loop
index is never incremented), so the stored matrix is `[16, 0, ..., 0]`,
not the sixteen values in order; and a node whose `matrix` has only
fifteen numeric entries also parses with `hasMatrix = true`, not
`false`. -/
theorem parseNodeElem_matrix_divergence :
    ((parseNodeElem (Json.obj [("matrix",
        Json.arr ((List.range 16).map (fun i => Json.num (i + 1 : Int))))])).map
      (fun n => (n.hasMatrix, n.matrix))
      = some (true, (16 : Int) :: List.replicate 15 0))
    ∧ ((parseNodeElem (Json.obj [("matrix",
        Json.arr ((List.range 15).map (fun i => Json.num (i + 1 : Int))))])).map
      Node.hasMatrix = some true)
    ∧ ((parseNodeElem (Json.obj [("matrix",
        Json.arr [Json.num 1, Json.str "x"])])).map Node.hasMatrix = some false) := by
  exact ⟨rfl, rfl, rfl⟩

/-- C2: evaluation of `decodeUri` at
`data:application/octet-stream;base64,QQ==`.  The call reports no error,
an embedded (vector-with-MIME) location and an octet-stream MIME
classification, but the character sequence handed to the base64
collaborator is `",QQ=="` — the suffix starting at the comma, comma
included — which the decoder rejects, so the payload is not `[0x41]`;
only the suffix strictly after the comma decodes to `[0x41]`. -/
theorem decodeUri_payload_divergence :
    (decodeUri {} [] "data:application/octet-stream;base64,QQ==".toList
      = (Error.none,
         { mimeType := MimeType.OctetStream, bytes := Option.none },
         DataLocation.VectorWithMime))
    ∧ ((decodeUri {} [] "data:application/octet-stream;base64,QQ==".toList).2.1.bytes
      = base64decode ",QQ==".toList)
    ∧ base64decode ",QQ==".toList = Option.none
    ∧ base64decode "QQ==".toList = some [0x41] := by
  exact ⟨rfl, rfl, rfl, rfl⟩

/-- C10: every URI whose first four characters are `data` takes the
data-URI branch of `decodeUri` (its location is never the external
file-path one), and the relative path `database/model.bin` in particular
is rejected with `invalidGltf` instead of being resolved against the
base directory. -/
theorem decodeUri_data_classification :
    (∀ (opts : Options) (dir uri : List Char), uri.take 4 = "data".toList →
      (decodeUri opts dir uri).2.2 ≠ DataLocation.FilePathWithByteRange)
    ∧ (∀ (opts : Options) (dir : List Char),
      decodeUri opts dir "database/model.bin".toList
        = (Error.invalidGltf, {}, DataLocation.None)) := by
  constructor
  · intro opts dir uri h
    unfold decodeUri
    rw [if_pos h]
    rcases hf : findCharFrom uri ';' 0 with _ | index <;> simp only [hf]
    · simp
    · rcases hg : findCharFrom uri ',' (index + 1) with _ | encodingEnd <;> simp only [hg]
      · simp
      · split <;> simp
  · intro opts dir
    rfl

/-- C6: `getParsedAsset` returns the stored asset exactly when the
session's error state is `none` (and the asset has not already been
moved out); any non-`none` error state yields `null` and leaves the
session unchanged, and after any retrieval a second retrieval always
yields `null`. -/
theorem getParsedAsset_release_policy (s : Session) :
    (s.errorCode ≠ Error.none → getParsedAsset s = (Option.none, s))
    ∧ (s.errorCode = Error.none →
        getParsedAsset s = (s.parsedAsset, { s with parsedAsset := Option.none }))
    ∧ ((getParsedAsset s).1.isSome ↔ s.errorCode = Error.none ∧ s.parsedAsset.isSome)
    ∧ (getParsedAsset (getParsedAsset s).2).1 = Option.none := by
  by_cases h : s.errorCode = Error.none
  · refine ⟨fun hc => absurd h hc, fun _ => by simp [getParsedAsset, h], ?_, ?_⟩
    · simp [getParsedAsset, h]
    · simp [getParsedAsset, h]
  · refine ⟨fun _ => by simp [getParsedAsset, h], fun hc => absurd hc h, ?_, ?_⟩
    · simp [getParsedAsset, h]
    · simp [getParsedAsset, h]

/-- Witness for the release policy: a fresh error-free session releases
its (empty) asset and a second retrieval returns `null`; the same
session with a recorded error releases nothing. -/
theorem getParsedAsset_release_policy_witness :
    (getParsedAsset { root := [] }
      = (some {}, { root := [], parsedAsset := Option.none }))
    ∧ (getParsedAsset { root := [], errorCode := Error.invalidGltf }
      = (Option.none, { root := [], errorCode := Error.invalidGltf }))
    ∧ (getParsedAsset (getParsedAsset { root := [] }).2).1 = Option.none := by
  refine ⟨(getParsedAsset_release_policy { root := [] }).2.1 rfl,
    (getParsedAsset_release_policy { root := [], errorCode := Error.invalidGltf }).1
      (by decide),
    (getParsedAsset_release_policy { root := [] }).2.2.2⟩

/-- Witness for the URI classification at the concrete path
`database/model.bin`, whose first four characters are `data`. -/
theorem decodeUri_data_classification_witness :
    "database/model.bin".toList.take 4 = "data".toList
    ∧ (decodeUri {} [] "database/model.bin".toList).2.2
      ≠ DataLocation.FilePathWithByteRange :=
  ⟨by decide,
   decodeUri_data_classification.1 {} [] "database/model.bin".toList (by decide)⟩

/-- C7: an accessor element whose `componentType` code maps to the
double-precision component type is rejected (and the accessors parse
records invalid-document) when the allow-double option is not set, and
parses with component type `Double` recorded (and no error) when it
is. -/
theorem parseAccessors_double_gate (accObj : List (String × Json)) (opts : Options)
    (code : Nat) (ty : String) (cnt : Nat)
    (hcode : (getField accObj "componentType").bind Json.getUint64 = some code)
    (hdouble : getComponentType code = ComponentType.Double)
    (hty : (getField accObj "type").bind Json.getString = some ty)
    (hcnt : (getField accObj "count").bind Json.getUint64 = some cnt) :
    (opts.allowDouble = false →
      parseAccessorElem opts (Json.obj accObj) = Option.none
      ∧ (parseAccessors { root := [("accessors", Json.arr [Json.obj accObj])], options := opts }).errorCode = Error.invalidGltf)
    ∧ (opts.allowDouble = true →
      ∃ acc, parseAccessorElem opts (Json.obj accObj) = some acc
        ∧ acc.componentType = ComponentType.Double
        ∧ (parseAccessors { root := [("accessors", Json.arr [Json.obj accObj])], options := opts }).errorCode = Error.none
        ∧ ((parseAccessors { root := [("accessors", Json.arr [Json.obj accObj])], options := opts }).parsedAsset.map Asset.accessors) = some [acc]) := by
  have hacc : ∀ hh : Bool, opts.allowDouble = hh →
      parseAccessorElem opts (Json.obj accObj) =
        (if hh = false then Option.none else
          some { componentType := ComponentType.Double,
                 type := getAccessorType ty,
                 count := cnt,
                 bufferViewIndex := ((getField accObj "bufferView").bind Json.getUint64).getD sizeMax,
                 byteOffset := ((getField accObj "byteOffset").bind Json.getUint64).getD 0,
                 normalized := ((getField accObj "normalized").bind Json.getBool).getD false,
                 name := ((getField accObj "name").bind Json.getString).getD "" }) := by
    intro hh hopt
    cases hh
    · simp only [parseAccessorElem, Json.getObject, Option.some_bind, hcode, hdouble, hopt,
        hty, hcnt]
      simp
    · simp only [parseAccessorElem, Json.getObject, Option.some_bind, hcode, hdouble, hopt,
        hty, hcnt]
      simp
  constructor
  · intro hopt
    have helem := hacc false hopt
    simp only [if_pos rfl] at helem
    refine ⟨helem, ?_⟩
    simp [parseAccessors, iterateOverArray, getField, Json.getArray, iterateList,
      accessorsCallback, helem]
  · intro hopt
    have helem := hacc true hopt
    simp only [reduceIte] at helem
    refine ⟨_, helem, rfl, ?_, ?_⟩
    · simp [parseAccessors, iterateOverArray, getField, Json.getArray, iterateList,
        accessorsCallback, helem, Session.pushAccessor]
    · simp [parseAccessors, iterateOverArray, getField, Json.getArray, iterateList,
        accessorsCallback, helem, Session.pushAccessor]

/-- Witness for the double-precision gate at the concrete accessor
`{"componentType": 5130, "type": "SCALAR", "count": 1}`. -/
theorem parseAccessors_double_gate_witness :
    (parseAccessorElem {} (Json.obj [("componentType", Json.num 5130),
        ("type", Json.str "SCALAR"), ("count", Json.num 1)]) = Option.none
      ∧ (parseAccessors { root := [("accessors", Json.arr [Json.obj
          [("componentType", Json.num 5130), ("type", Json.str "SCALAR"),
           ("count", Json.num 1)]])], options := {} }).errorCode = Error.invalidGltf)
    ∧ (∃ acc, parseAccessorElem { allowDouble := true } (Json.obj
        [("componentType", Json.num 5130), ("type", Json.str "SCALAR"),
         ("count", Json.num 1)]) = some acc
      ∧ acc.componentType = ComponentType.Double
      ∧ (parseAccessors { root := [("accessors", Json.arr [Json.obj
          [("componentType", Json.num 5130), ("type", Json.str "SCALAR"),
           ("count", Json.num 1)]])], options := { allowDouble := true } }).errorCode
          = Error.none
      ∧ ((parseAccessors { root := [("accessors", Json.arr [Json.obj
          [("componentType", Json.num 5130), ("type", Json.str "SCALAR"),
           ("count", Json.num 1)]])], options := { allowDouble := true } }).parsedAsset.map
          Asset.accessors) = some [acc]) :=
  ⟨(parseAccessors_double_gate [("componentType", Json.num 5130),
      ("type", Json.str "SCALAR"), ("count", Json.num 1)] {} 5130 "SCALAR" 1
      rfl rfl rfl rfl).1 rfl,
   (parseAccessors_double_gate [("componentType", Json.num 5130),
      ("type", Json.str "SCALAR"), ("count", Json.num 1)] { allowDouble := true }
      5130 "SCALAR" 1 rfl rfl rfl rfl).2 rfl⟩

/-- C8: the concrete texture `{"source": 0, "extensions":
{"MSFT_texture_dds": {"source": 5}}}` (both extension options enabled)
parses with resolved image index 5 and fallback image index 0; a texture
without an extensions map keeps the sentinel fallback index; and
whenever the basis-universal candidate supplies a source index, it is
taken and the DDS candidate is never consulted (the result does not
depend on it). -/
theorem parseTextures_extension_resolution :
    ((parseTextureElem { loadKTXExtension := true, loadDDSExtension := true }
        (Json.obj [("source", Json.num 0),
          ("extensions", Json.obj [("MSFT_texture_dds",
            Json.obj [("source", Json.num 5)])])])).map
      (fun t => (t.imageIndex, t.fallbackImageIndex)) = some (5, 0))
    ∧ (∀ (tobj : List (String × Json)) (opts : Options) (t : Texture),
        (getField tobj "extensions").bind Json.getObject = Option.none →
        parseTextureElem opts (Json.obj tobj) = some t →
        t.fallbackImageIndex = sizeMax)
    ∧ (∀ (extObj : List (String × Json)) (opts : Options) (t : Texture) (i : Nat),
        opts.loadKTXExtension = true →
        getImageIndexForExtension extObj "KHR_texture_basisu" = (false, false, i) →
        parseTextureExtensions t extObj opts = some { t with imageIndex := i }) := by
  refine ⟨rfl, ?_, ?_⟩
  · intro tobj opts t hext hparse
    rw [parseTextureElem, show (Json.obj tobj).getObject = some tobj from rfl,
      Option.some_bind] at hparse
    rw [hext] at hparse
    rcases hsrc : (getField tobj "source").bind Json.getUint64 with _ | idx <;>
      rw [hsrc] at hparse
    · simp at hparse
    · simp at hparse
      rw [← hparse]
  · intro extObj opts t i hktx hbasisu
    simp [parseTextureExtensions, hktx, hbasisu]

/-- Witness for the texture-extension resolution: a texture with only
`source: 2` keeps the sentinel fallback, and a basisu extension with
`source: 7` overrides the image index. -/
theorem parseTextures_extension_resolution_witness :
    (({ imageIndex := 2 } : Texture).fallbackImageIndex = sizeMax)
    ∧ parseTextureExtensions {} [("KHR_texture_basisu",
        Json.obj [("source", Json.num 7)])] { loadKTXExtension := true }
      = some { imageIndex := 7 } := by
  refine ⟨parseTextures_extension_resolution.2.1 [("source", Json.num 2)] {}
      { imageIndex := 2 } rfl rfl, ?_⟩
  exact parseTextures_extension_resolution.2.2
    [("KHR_texture_basisu", Json.obj [("source", Json.num 7)])]
    { loadKTXExtension := true } {} 7 rfl rfl

/-- C3 counterexample: with both extension options enabled, a texture
whose extensions map holds `KHR_texture_basisu` as an object WITHOUT a
`source` index (and `MSFT_texture_dds` supplying `source: 5`) does NOT
continue to the next candidate: `getImageIndexForExtension` reports the
invalid-glTF flag, the resolver returns failure without consulting the
DDS candidate, and the whole texture element fails to parse. -/
theorem texture_ext_object_without_source_counterexample :
    (getImageIndexForExtension [("KHR_texture_basisu", Json.obj [])] "KHR_texture_basisu"
      = (true, false, 0))
    ∧ parseTextureExtensions {}
        [("KHR_texture_basisu", Json.obj []),
         ("MSFT_texture_dds", Json.obj [("source", Json.num 5)])]
        { loadKTXExtension := true, loadDDSExtension := true } = Option.none
    ∧ parseTextureElem { loadKTXExtension := true, loadDDSExtension := true }
        (Json.obj [("source", Json.num 0),
          ("extensions", Json.obj [("KHR_texture_basisu", Json.obj []),
            ("MSFT_texture_dds", Json.obj [("source", Json.num 5)])])]) = Option.none :=
  ⟨rfl, rfl, rfl⟩

/-- C3 amended: a recognised, enabled extension key whose value is an
object lacking a `source` index makes `getImageIndexForExtension` report
the invalid-glTF flag, which aborts the extension resolution (no later
candidate is consulted) and fails the owning texture element
entirely. -/
theorem texture_ext_object_without_source_fails :
    (∀ (extObj : List (String × Json)) (ext : String) (o : List (String × Json)),
      (getField extObj ext).bind Json.getObject = some o →
      (getField o "source").bind Json.getUint64 = Option.none →
      getImageIndexForExtension extObj ext = (true, false, 0))
    ∧ (∀ (t : Texture) (opts : Options) (extObj : List (String × Json)),
      opts.loadKTXExtension = true →
      getImageIndexForExtension extObj "KHR_texture_basisu" = (true, false, 0) →
      parseTextureExtensions t extObj opts = Option.none)
    ∧ (∀ (t : Texture) (opts : Options) (extObj : List (String × Json)),
      opts.loadDDSExtension = true →
      (opts.loadKTXExtension = false ∨
        getImageIndexForExtension extObj "KHR_texture_basisu" = (false, true, 0)) →
      getImageIndexForExtension extObj "MSFT_texture_dds" = (true, false, 0) →
      parseTextureExtensions t extObj opts = Option.none)
    ∧ (∀ (opts : Options) (tobj extObj : List (String × Json)),
      (getField tobj "extensions").bind Json.getObject = some extObj →
      (∀ t : Texture, parseTextureExtensions t extObj opts = Option.none) →
      parseTextureElem opts (Json.obj tobj) = Option.none) := by
  refine ⟨?_, ?_, ?_, ?_⟩
  · intro extObj ext o h1 h2
    simp only [getImageIndexForExtension, h1, h2]
  · intro t opts extObj hktx hres
    simp [parseTextureExtensions, hktx, hres]
  · intro t opts extObj hdds hktx hres
    rcases hktx with hk | hb
    · simp [parseTextureExtensions, hk, hdds, hres]
    · cases hk : opts.loadKTXExtension <;>
        simp [parseTextureExtensions, hk, hb, hdds, hres]
  · intro opts tobj extObj hext hall
    rw [parseTextureElem, show (Json.obj tobj).getObject = some tobj from rfl,
      Option.some_bind]
    rw [hext]
    simp [hall]

/-- Witness for `texture_ext_object_without_source_fails` at concrete
inputs: an extension object without `source` classifies as invalid, the
resolver fails for the basisu candidate, for the DDS candidate, and the
owning texture element fails. -/
theorem texture_ext_object_without_source_fails_witness :
    (getImageIndexForExtension [("E", Json.obj [])] "E" = (true, false, 0))
    ∧ parseTextureExtensions { imageIndex := 1 }
        [("KHR_texture_basisu", Json.obj [("x", Json.num 0)])]
        { loadKTXExtension := true } = Option.none
    ∧ parseTextureExtensions { imageIndex := 1 }
        [("MSFT_texture_dds", Json.obj [("x", Json.num 0)])]
        { loadDDSExtension := true } = Option.none
    ∧ parseTextureElem { loadKTXExtension := true }
        (Json.obj [("extensions", Json.obj [("KHR_texture_basisu", Json.obj [])])])
      = Option.none := by
  refine ⟨texture_ext_object_without_source_fails.1 [("E", Json.obj [])] "E" [] rfl rfl,
    texture_ext_object_without_source_fails.2.1 { imageIndex := 1 }
      { loadKTXExtension := true } [("KHR_texture_basisu", Json.obj [("x", Json.num 0)])]
      rfl (texture_ext_object_without_source_fails.1
        [("KHR_texture_basisu", Json.obj [("x", Json.num 0)])] "KHR_texture_basisu"
        [("x", Json.num 0)] rfl rfl),
    texture_ext_object_without_source_fails.2.2.1 { imageIndex := 1 }
      { loadDDSExtension := true } [("MSFT_texture_dds", Json.obj [("x", Json.num 0)])]
      rfl (Or.inl rfl)
      (texture_ext_object_without_source_fails.1
        [("MSFT_texture_dds", Json.obj [("x", Json.num 0)])] "MSFT_texture_dds"
        [("x", Json.num 0)] rfl rfl),
    texture_ext_object_without_source_fails.2.2.2 { loadKTXExtension := true }
      [("extensions", Json.obj [("KHR_texture_basisu", Json.obj [])])]
      [("KHR_texture_basisu", Json.obj [])] rfl (fun t => rfl)⟩

/-- C4 counterexample: with both extension options enabled, a texture
whose extensions map holds `KHR_texture_basisu` with a NON-object value
(the number 42) does not fail: the key is classified as
extension-not-present, the resolver moves on to `MSFT_texture_dds`, and
the texture parses successfully with image index 5. -/
theorem texture_ext_non_object_counterexample :
    (getImageIndexForExtension [("KHR_texture_basisu", Json.num 42)] "KHR_texture_basisu"
      = (false, true, 0))
    ∧ parseTextureElem { loadKTXExtension := true, loadDDSExtension := true }
        (Json.obj [("source", Json.num 0),
          ("extensions", Json.obj [("KHR_texture_basisu", Json.num 42),
            ("MSFT_texture_dds", Json.obj [("source", Json.num 5)])])])
      = some { imageIndex := 5, fallbackImageIndex := 0 } :=
  ⟨rfl, rfl⟩

/-- C4 amended: a recognised, enabled extension key whose value is
present but not an object is classified exactly like an absent key
(`extensionNotPresent`), and the resolver's result is the same as if
that extension option had been disabled: it continues to the next
candidate instead of failing the texture parse at that point. -/
theorem texture_ext_non_object_skipped :
    (∀ (extObj : List (String × Json)) (ext : String),
      (getField extObj ext).bind Json.getObject = Option.none →
      getImageIndexForExtension extObj ext = (false, true, 0))
    ∧ (∀ (t : Texture) (opts : Options) (extObj : List (String × Json)),
      (getField extObj "KHR_texture_basisu").bind Json.getObject = Option.none →
      parseTextureExtensions t extObj opts
        = parseTextureExtensions t extObj { opts with loadKTXExtension := false })
    ∧ (∀ (t : Texture) (opts : Options) (extObj : List (String × Json)),
      (getField extObj "MSFT_texture_dds").bind Json.getObject = Option.none →
      parseTextureExtensions t extObj opts
        = parseTextureExtensions t extObj { opts with loadDDSExtension := false }) := by
  refine ⟨?_, ?_, ?_⟩
  · intro extObj ext h
    simp only [getImageIndexForExtension, h]
  · intro t opts extObj h
    have hbase : getImageIndexForExtension extObj "KHR_texture_basisu" = (false, true, 0) := by
      simp only [getImageIndexForExtension, h]
    cases hk : opts.loadKTXExtension <;> simp [parseTextureExtensions, hbase, hk]
  · intro t opts extObj h
    have hdds : getImageIndexForExtension extObj "MSFT_texture_dds" = (false, true, 0) := by
      simp only [getImageIndexForExtension, h]
    rcases hb : getImageIndexForExtension extObj "KHR_texture_basisu" with ⟨b1, b2, i⟩
    cases b1 <;> cases b2 <;> cases hk : opts.loadKTXExtension <;>
      cases hd : opts.loadDDSExtension <;>
        simp [parseTextureExtensions, hb, hdds, hk, hd]

/-- Witness for `texture_ext_non_object_skipped` at concrete inputs: a
numeric extension value classifies as extension-not-present, and the
resolver's results coincide with the candidate disabled, for both
candidates. -/
theorem texture_ext_non_object_skipped_witness :
    (getImageIndexForExtension [("E", Json.num 9)] "E" = (false, true, 0))
    ∧ parseTextureExtensions { imageIndex := 3 }
        [("KHR_texture_basisu", Json.num 42),
         ("MSFT_texture_dds", Json.obj [("source", Json.num 5)])]
        { loadKTXExtension := true, loadDDSExtension := true }
      = parseTextureExtensions { imageIndex := 3 }
        [("KHR_texture_basisu", Json.num 42),
         ("MSFT_texture_dds", Json.obj [("source", Json.num 5)])]
        { loadKTXExtension := false, loadDDSExtension := true }
    ∧ parseTextureExtensions { imageIndex := 3 }
        [("MSFT_texture_dds", Json.str "no")]
        { loadKTXExtension := false, loadDDSExtension := true }
      = parseTextureExtensions { imageIndex := 3 }
        [("MSFT_texture_dds", Json.str "no")]
        { loadKTXExtension := false, loadDDSExtension := false } :=
  ⟨texture_ext_non_object_skipped.1 [("E", Json.num 9)] "E" rfl,
   texture_ext_non_object_skipped.2.1 { imageIndex := 3 }
     { loadKTXExtension := true, loadDDSExtension := true }
     [("KHR_texture_basisu", Json.num 42),
      ("MSFT_texture_dds", Json.obj [("source", Json.num 5)])] rfl,
   texture_ext_non_object_skipped.2.2 { imageIndex := 3 }
     { loadKTXExtension := false, loadDDSExtension := true }
     [("MSFT_texture_dds", Json.str "no")] rfl⟩

/-- Helper: the element loop stops at the first failing element — the
elements after it are never consulted — returning the state mutated by
the failing callback call and the failure flag. -/
theorem iterateList_stop {σ : Type} (cb : σ → Json → σ × Bool) (bad : Json)
    (post : List Json) :
    ∀ (pre : List Json) (s s1 : σ), iterateList cb s pre = (s1, true) →
      (cb s1 bad).2 = false →
      iterateList cb s (pre ++ bad :: post) = ((cb s1 bad).1, false) := by
  intro pre
  induction pre with
  | nil =>
    intro s s1 hpre hbad
    simp only [iterateList, Prod.mk.injEq] at hpre
    obtain ⟨rfl, -⟩ := hpre
    simp [iterateList, hbad]
  | cons j rest ih =>
    intro s s1 hpre hbad
    simp only [iterateList] at hpre
    simp only [List.cons_append, iterateList]
    cases hcj : (cb s j).2
    · rw [hcj] at hpre
      simp at hpre
    · rw [hcj] at hpre
      simp only [if_pos rfl] at hpre ⊢
      simpa using ih (cb s j).1 s1 (by simpa using hpre) hbad

/-- C5 counterexample: when a named field is present but its value is
not an array (`"buffers": 3`), the helper reports `(found = false,
error = none)` — NOT "found with a schema-violation error" — and the
owning `parseBuffers` consequently records no error at all and leaves
the asset releasable. -/
theorem iterateOverArray_non_array_counterexample :
    iterateOverArray [("buffers", Json.num 3)] "buffers"
        (fun (n : Nat) _ => (n, true)) 0 = (0, false, Error.none)
    ∧ (parseBuffers { root := [("buffers", Json.num 3)] }).errorCode = Error.none
    ∧ (parseBuffers { root := [("buffers", Json.num 3)] }).parsedAsset = some {} :=
  ⟨rfl, rfl, rfl⟩

/-- C5 amended: a present-but-not-an-array field is reported exactly
like an absent one — `(found = false, error = none)`, silently treated
as absent; a failing per-element callback stops the iteration at the
first failing element (elements past it are not processed) and reports
the schema-violation error `invalidGltf` together with `found =
false`. -/
theorem iterateOverArray_behaviour :
    (∀ (σ : Type) (parent : List (String × Json)) (fieldName : String) (v : Json)
        (cb : σ → Json → σ × Bool) (s : σ),
      getField parent fieldName = some v → v.getArray = Option.none →
      iterateOverArray parent fieldName cb s = (s, false, Error.none))
    ∧ (∀ (σ : Type) (cb : σ → Json → σ × Bool) (s s1 : σ) (pre : List Json) (bad : Json)
        (post : List Json),
      iterateList cb s pre = (s1, true) → (cb s1 bad).2 = false →
      iterateList cb s (pre ++ bad :: post) = ((cb s1 bad).1, false))
    ∧ (∀ (σ : Type) (parent : List (String × Json)) (fieldName : String)
        (cb : σ → Json → σ × Bool) (s s1 : σ) (pre : List Json) (bad : Json)
        (post : List Json),
      (getField parent fieldName).bind Json.getArray = some (pre ++ bad :: post) →
      iterateList cb s pre = (s1, true) → (cb s1 bad).2 = false →
      iterateOverArray parent fieldName cb s = ((cb s1 bad).1, false, Error.invalidGltf)) := by
  refine ⟨?_, ?_, ?_⟩
  · intro σ parent fieldName v cb s h1 h2
    simp only [iterateOverArray, h1, Option.some_bind, h2]
  · intro σ cb s s1 pre bad post hpre hbad
    exact iterateList_stop cb bad post pre s s1 hpre hbad
  · intro σ parent fieldName cb s s1 pre bad post harr hpre hbad
    simp only [iterateOverArray, harr]
    rw [iterateList_stop cb bad post pre s s1 hpre hbad]
    simp

/-- Witness for `iterateOverArray_behaviour` at concrete inputs: a
boolean-valued field is treated as absent; the loop over
`[1, "x", 2]` with a numbers-only callback stops after the second
element with state 1; and the helper reports the schema violation. -/
theorem iterateOverArray_behaviour_witness :
    iterateOverArray [("xs", Json.bool true)] "xs"
        (fun (n : Nat) _ => (n + 1, true)) 0 = (0, false, Error.none)
    ∧ iterateList
        (fun (n : Nat) j => match j with
          | Json.num _ => (n + 1, true)
          | _ => (n, false)) 0 [Json.num 1, Json.str "x", Json.num 2] = (1, false)
    ∧ iterateOverArray [("xs", Json.arr [Json.num 1, Json.str "x", Json.num 2])] "xs"
        (fun (n : Nat) j => match j with
          | Json.num _ => (n + 1, true)
          | _ => (n, false)) 0 = (1, false, Error.invalidGltf) :=
  ⟨iterateOverArray_behaviour.1 Nat [("xs", Json.bool true)] "xs" (Json.bool true)
      (fun n _ => (n + 1, true)) 0 rfl rfl,
   iterateOverArray_behaviour.2.1 Nat
      (fun n j => match j with
        | Json.num _ => (n + 1, true)
        | _ => (n, false)) 0 1 [Json.num 1] (Json.str "x") [Json.num 2] rfl rfl,
   iterateOverArray_behaviour.2.2 Nat
      [("xs", Json.arr [Json.num 1, Json.str "x", Json.num 2])] "xs"
      (fun n j => match j with
        | Json.num _ => (n + 1, true)
        | _ => (n, false)) 0 1 [Json.num 1] (Json.str "x") [Json.num 2] rfl rfl rfl⟩

/-- Helper: the element loop preserves a non-`none` session error state
whenever each callback call does. -/
theorem iterateList_errorCode (cb : Session → Json → Session × Bool)
    (hcb : ∀ (t : Session) (j : Json), t.errorCode ≠ Error.none →
      ((cb t j).1).errorCode ≠ Error.none) :
    ∀ (l : List Json) (s : Session), s.errorCode ≠ Error.none →
      ((iterateList cb s l).1).errorCode ≠ Error.none := by
  intro l
  induction l with
  | nil => intro s h; exact h
  | cons j rest ih =>
    intro s h
    simp only [iterateList]
    cases hcj : (cb s j).2
    · simpa [hcj] using hcb s j h
    · simpa [hcj] using ih (cb s j).1 (hcb s j h)

/-- Helper: a parser of the common shape (iterate the named top-level
array, then record the error when the iteration failed) cannot clear a
non-`none` session error state. -/
theorem parserShape_errorCode (fieldName : String) (cb : Session → Json → Session × Bool)
    (hcb : ∀ (t : Session) (j : Json), t.errorCode ≠ Error.none →
      ((cb t j).1).errorCode ≠ Error.none)
    (s : Session) (h : s.errorCode ≠ Error.none) :
    (let r := iterateOverArray s.root fieldName cb s
     if r.2.1 = false ∧ r.2.2 ≠ Error.none then { r.1 with errorCode := r.2.2 }
     else r.1).errorCode ≠ Error.none := by
  simp only [iterateOverArray]
  rcases harr : (getField s.root fieldName).bind Json.getArray with _ | elems
  · simpa using h
  · have hlist := iterateList_errorCode cb hcb elems s h
    cases hflag : (iterateList cb s elems).2 <;> simp [hflag, hlist]

/-- Helper: the buffers callback never touches the error state. -/
theorem buffersCallback_errorCode (t : Session) (j : Json) :
    ((buffersCallback t j).1).errorCode = t.errorCode := by
  unfold buffersCallback
  cases parseBufferElem t.options t.directory j <;> simp [Session.pushBuffer]

/-- Helper: the buffer-views callback never touches the error state. -/
theorem bufferViewsCallback_errorCode (t : Session) (j : Json) :
    ((bufferViewsCallback t j).1).errorCode = t.errorCode := by
  unfold bufferViewsCallback
  cases parseBufferViewElem j <;> simp [Session.pushBufferView]

/-- Helper: the accessors callback never touches the error state. -/
theorem accessorsCallback_errorCode (t : Session) (j : Json) :
    ((accessorsCallback t j).1).errorCode = t.errorCode := by
  unfold accessorsCallback
  cases parseAccessorElem t.options j <;> simp [Session.pushAccessor]

/-- Helper: the images callback never touches the error state. -/
theorem imagesCallback_errorCode (t : Session) (j : Json) :
    ((imagesCallback t j).1).errorCode = t.errorCode := by
  unfold imagesCallback
  cases parseImageElem t.options t.directory j <;> simp [Session.pushImage]

/-- Helper: the textures callback never touches the error state. -/
theorem texturesCallback_errorCode (t : Session) (j : Json) :
    ((texturesCallback t j).1).errorCode = t.errorCode := by
  unfold texturesCallback
  cases parseTextureElem t.options j <;> simp [Session.pushTexture]

/-- Helper: the nodes callback never touches the error state. -/
theorem nodesCallback_errorCode (t : Session) (j : Json) :
    ((nodesCallback t j).1).errorCode = t.errorCode := by
  unfold nodesCallback
  cases parseNodeElem j <;> simp [Session.pushNode]

/-- Helper: the meshes callback preserves a non-`none` error state (it
only ever writes `invalidGltf`). -/
theorem meshesCallback_errorCode (t : Session) (j : Json)
    (h : t.errorCode ≠ Error.none) :
    ((meshesCallback t j).1).errorCode ≠ Error.none := by
  cases hobj : j.getObject with
  | none => simpa [meshesCallback, hobj] using h
  | some meshObject =>
    simp only [meshesCallback, hobj]
    split
    · simp
    · simpa [Session.pushMesh] using h

/-- Helper: the scenes callback preserves a non-`none` error state (it
only ever writes the nested loop's non-`none` error). -/
theorem scenesCallback_errorCode (t : Session) (j : Json)
    (h : t.errorCode ≠ Error.none) :
    ((scenesCallback t j).1).errorCode ≠ Error.none := by
  cases hobj : j.getObject with
  | none => simpa [scenesCallback, hobj] using h
  | some sceneObject =>
    simp only [scenesCallback, hobj]
    split
    next hcond => simpa using hcond.2
    next => simpa [Session.pushScene] using h

/-- C9: the session's error state is monotone — once non-`none`, no
entity parser invocation returns it to `none` — while parsers invoked
after an error still run: a buffers parse on an already-errored session
still appends the parsed buffer, and a scenes parse still appends the
parsed scene, with the prior error untouched in both demonstrations. -/
theorem parsers_error_monotone :
    (∀ s : Session, s.errorCode ≠ Error.none →
      (parseBuffers s).errorCode ≠ Error.none
      ∧ (parseBufferViews s).errorCode ≠ Error.none
      ∧ (parseAccessors s).errorCode ≠ Error.none
      ∧ (parseImages s).errorCode ≠ Error.none
      ∧ (parseTextures s).errorCode ≠ Error.none
      ∧ (parseMeshes s).errorCode ≠ Error.none
      ∧ (parseNodes s).errorCode ≠ Error.none
      ∧ (parseScenes s).errorCode ≠ Error.none)
    ∧ ((parseBuffers erroredBuffersSession).errorCode = Error.invalidJson
      ∧ ((parseBuffers erroredBuffersSession).parsedAsset.map
          (fun a => a.buffers.length)) = some 1)
    ∧ ((parseScenes erroredScenesSession).errorCode = Error.invalidJson
      ∧ ((parseScenes erroredScenesSession).parsedAsset.map
          (fun a => a.scenes.length)) = some 1) := by
  refine ⟨?_, ⟨rfl, rfl⟩, ⟨rfl, rfl⟩⟩
  intro s h
  have hb : ∀ (t : Session) (j : Json), t.errorCode ≠ Error.none →
      ((buffersCallback t j).1).errorCode ≠ Error.none := by
    intro t j ht; rw [buffersCallback_errorCode]; exact ht
  have hbv : ∀ (t : Session) (j : Json), t.errorCode ≠ Error.none →
      ((bufferViewsCallback t j).1).errorCode ≠ Error.none := by
    intro t j ht; rw [bufferViewsCallback_errorCode]; exact ht
  have hacc : ∀ (t : Session) (j : Json), t.errorCode ≠ Error.none →
      ((accessorsCallback t j).1).errorCode ≠ Error.none := by
    intro t j ht; rw [accessorsCallback_errorCode]; exact ht
  have himg : ∀ (t : Session) (j : Json), t.errorCode ≠ Error.none →
      ((imagesCallback t j).1).errorCode ≠ Error.none := by
    intro t j ht; rw [imagesCallback_errorCode]; exact ht
  have htex : ∀ (t : Session) (j : Json), t.errorCode ≠ Error.none →
      ((texturesCallback t j).1).errorCode ≠ Error.none := by
    intro t j ht; rw [texturesCallback_errorCode]; exact ht
  have hnode : ∀ (t : Session) (j : Json), t.errorCode ≠ Error.none →
      ((nodesCallback t j).1).errorCode ≠ Error.none := by
    intro t j ht; rw [nodesCallback_errorCode]; exact ht
  exact ⟨parserShape_errorCode "buffers" buffersCallback hb s h,
    parserShape_errorCode "bufferViews" bufferViewsCallback hbv s h,
    parserShape_errorCode "accessors" accessorsCallback hacc s h,
    parserShape_errorCode "images" imagesCallback himg s h,
    parserShape_errorCode "textures" texturesCallback htex s h,
    parserShape_errorCode "meshes" meshesCallback meshesCallback_errorCode s h,
    parserShape_errorCode "nodes" nodesCallback hnode s h,
    parserShape_errorCode "scenes" scenesCallback scenesCallback_errorCode s h⟩

/-- Witness for the error-monotonicity: on a session that already
records `invalidJson`, every entity parser still returns a non-`none`
error. -/
theorem parsers_error_monotone_witness :
    (parseBuffers { root := [], errorCode := Error.invalidJson }).errorCode ≠ Error.none
    ∧ (parseScenes { root := [], errorCode := Error.invalidJson }).errorCode ≠ Error.none :=
  ⟨(parsers_error_monotone.1 { root := [], errorCode := Error.invalidJson } (by decide)).1,
   (parsers_error_monotone.1 { root := [], errorCode := Error.invalidJson }
     (by decide)).2.2.2.2.2.2.2⟩

end Fastgltf
